import Mathlib

/-!
Verification of the CUDA ufunc/gufunc dispatch layer
(`numbapro/cudavec/dispatch.py`).

The Python source is shallowly embedded below: arrays are modelled as
explicit shape/data records over an abstract element type `α` and an
abstract dtype-tag type `δ`; Python exceptions are modelled by an
`Except PyError` result; the opaque compiled kernel is a parameter
(a scalar function applied elementwise); machine floats used by
`math.ceil(float(n) / m)` are modelled by exact rational arithmetic.
-/

namespace Dispatch

/-- Model of the Python exceptions raised (or accidentally triggered) by
`dispatch.py`.  `valueErrorArgs` models a `ValueError` raised with several
positional arguments (an unformatted format string plus values), as in
`raise ValueError("dimension %s mismatch: %d != %d", sym, val, old)`. -/
inductive PyError where
  | typeError (msg : String)
  | valueError (msg : String)
  | valueErrorArgs (fmt : String) (sym : String) (a : Nat) (b : Nat)
  | indexError
  | keyError
  | attributeError (name : String)
  | assertionError (msg : String)
  | exception (msg : String)
  deriving DecidableEq, Repr

/-- Host or device ndarray, as the dispatcher observes it: a buffer
identity (to reason about views versus fresh allocations), a residency
flag, a shape, whether `strides[0] == 0` (the zero-stride broadcast-scalar
form produced by the device path's scalar promotion), a dtype tag and the
row-major element data. -/
structure NDArr (α : Type) (δ : Type) where
  bufId : Nat
  isDevice : Bool
  shape : List Nat
  zeroStride : Bool
  dtype : δ
  data : List α
  deriving DecidableEq, Repr

/-- `np.prod` of a shape tuple (`np.prod(()) = 1`). -/
def npProd (s : List Nat) : Nat := s.foldl (· * ·) 1

/-- The opaque compiled kernel handle: its scalar operation (applied
elementwise by a launch), the device hardware limit
`device.MAX_THREADS_PER_BLOCK`, and the autotuning oracle
(`none` models `func.autotune` raising `RuntimeError`, i.e. no
autotuner; `some b` models `autotune.best() == b`). -/
structure Kernel (α : Type) where
  run : List α → α
  MAX_THREADS_PER_BLOCK : Nat
  autotune : Option Nat

namespace CudaUFuncDispatcher

/-- `CudaUFuncDispatcher._apply_autotuning`: if the kernel exposes an
autotuner, take its best thread count, failing when it reports zero. -/
def apply_autotuning (autotune : Option Nat) (max_threads : Nat) : Except PyError Nat :=
  match autotune with
  | none => .ok max_threads
  | some best =>
      if best = 0 then
        .error (.exception "insufficient resources to run kernelat any thread-per-block.")
      else
        .ok best

/-- Lines 102-107 of `__call__`: the effective thread ceiling is
`min(MAX_THREADS_PER_BLOCK, max_blocksize)`, autotuned only when the
ceiling still equals the hardware maximum. -/
def effective_max_threads (max_blocksize : Nat) (k : Kernel α) : Except PyError Nat :=
  let max_threads := min k.MAX_THREADS_PER_BLOCK max_blocksize
  if max_threads = k.MAX_THREADS_PER_BLOCK then
    apply_autotuning k.autotune max_threads
  else
    .ok max_threads

/-- `CudaUFuncDispatcher._determine_dimensions`:
`(int(math.ceil(float(n) / max_thread)), int(min(max_thread, n)))`.
The float ceiling `math.ceil(float(n) / max_thread)` is computed by exact
natural ceiling division so the definition evaluates in the kernel;
theorem `C3_geometry` proves it equal to the mathematical ceiling
`⌈n / max_thread⌉` over `ℚ`.  Returns `(block_count, thread_count)`. -/
def determine_dimensions (n max_thread : Nat) : Nat × Nat :=
  ((n + max_thread - 1) / max_thread, min max_thread n)

/-- `CudaUFuncDispatcher.__reduce` (lines 254-275): recursive pairwise
tree reduction over a 1-D device buffer, modelled on the buffer's element
list.  `mem.split(k)` is modelled by `take`/`drop`; the nested elementwise
call `self(left, right, out=left, stream=stream)` launches the binary
kernel `op` pairwise over two equal-length buffers, writing into the
left one (`List.zipWith op`).  The extra `fuel` argument (instantiated
with the buffer length by `reduce`) makes the recursion structural; the
source recursion strictly decreases the buffer length, so with that
instantiation the fuel never runs out. -/
def reduce_tree (op : α → α → α) : Nat → List α → List α
  | 0, mem => mem
  | fuel + 1, mem =>
    let n := mem.length
    if n % 2 ≠ 0 then
      let fatcut := mem.take (n - 1)
      let thincut := mem.drop (n - 1)
      let out := reduce_tree op fuel fatcut
      List.zipWith op out thincut
    else
      let left := List.zipWith op (mem.take (n / 2)) (mem.drop (n / 2))
      if n / 2 > 1 then reduce_tree op fuel left else left

/-- `CudaUFuncDispatcher.reduce` (lines 225-251): length 0 raises
`TypeError("Reduction on an empty array.")`; length 1 returns `arg[0]`
directly with no device work; otherwise the tree reduction runs on the
device buffer and the one remaining element is copied back to the host. -/
def reduce (op : α → α → α) (arg : List α) : Except PyError α :=
  match arg with
  | [] => .error (.typeError "Reduction on an empty array.")
  | [a] => .ok a
  | _ =>
    match (reduce_tree op arg.length arg).head? with
    | some v => .ok v
    | none => .error .indexError

end CudaUFuncDispatcher

/-- `op` lifted to `Option α` with `none` as identity element (a proof
device for reasoning about combinations of nonempty buffers). -/
def opo (op : α → α → α) : Option α → Option α → Option α
  | none, y => y
  | some a, none => some a
  | some a, some b => some (op a b)

/-- Combination of all elements of a list under `op`
(`none` on the empty list). -/
def combineAll (op : α → α → α) (l : List α) : Option α :=
  l.foldr (fun a acc => opo op (some a) acc) none

/-- Launch data recorded for one elementwise kernel launch: grid size,
block size, and (device path only) the trailing element-count kernel
argument. -/
structure LaunchInfo where
  griddim : Nat
  blockdim : Nat
  countArg : Option Nat
  deriving DecidableEq, Repr

namespace CudaUFuncDispatcher

/-- Kernel-table lookup (lines 191-197): keyed by the argument dtype
tuple; a miss raises the unsupported-type `TypeError`. -/
def get_function_by_dtype (functions : List δ → Option (δ × Kernel α))
    (dtypes : List δ) : Except PyError (δ × Kernel α) :=
  match functions dtypes with
  | some r => .ok r
  | none => .error (.typeError "Input dtypes not supported by ufunc")

/-- Lines 110-116 of `__call__`: a 0-d argument is replaced by a fresh
1-element zero-strided host array holding its scalar value
(`np.ndarray(shape=(1,), strides=(0,))`). -/
def promote_scalar (a : NDArr α δ) : NDArr α δ :=
  if a.shape = [] then { a with shape := [1], zeroStride := true, isDevice := false }
  else a

/-- `_arguments_requirement` (lines 202-217): every device-path argument
must be 1-D; among the arguments with non-zero stride, every length must
equal the first one.  The mismatch branch evaluates
`"arg %d should have length %d" % ms` where `ms` is a single integer, so
the raise statement itself fails with `TypeError: not enough arguments
for format string` — the intended `ValueError` is never constructed.  An
all-zero-stride argument list makes `array_shapes[0]` raise
`IndexError`. -/
def arguments_requirement (args : List (NDArr α δ)) : Except PyError Unit :=
  match args.enum.find? (fun p => p.2.shape.length ≠ 1) with
  | some p => .error (.valueError ("arg " ++ toString p.1 ++ " is not a 1D array"))
  | none =>
    match (args.enum.filter fun p => p.2.zeroStride = false).map
        (fun p => (p.1, p.2.shape.headD 0)) with
    | [] => .error .indexError
    | (_, ms) :: rest =>
      if rest.all fun p => p.2 = ms then .ok ()
      else .error (.typeError "not enough arguments for format string")

/-- Modelled from the spec: `cuda._auto_device` (external to this file)
stages a host array to the device and passes a device array through
("TransferCoordinator — ... stages host arrays to device").  Only the
residency flag is observable in this value model. -/
def auto_device (a : NDArr α δ) : NDArr α δ :=
  if a.isDevice then a else { a with isDevice := true }

/-- `_determine_element_count` (lines 199-200):
`np.prod(broadcast_arrays[0].shape)`. -/
def determine_element_count (broadcast_arrays : List (NDArr α δ)) :
    Except PyError Nat :=
  match broadcast_arrays with
  | [] => .error .indexError
  | a :: _ => .ok (npProd a.shape)

/-- `_determine_output_shape` (elementwise, lines 188-189):
`broadcast_arrays[0].shape`. -/
def determine_output_shape (broadcast_arrays : List (NDArr α δ)) :
    Except PyError (List Nat) :=
  match broadcast_arrays with
  | [] => .error .indexError
  | a :: _ => .ok a.shape

/-- `_allocate_output` (elementwise, lines 46-47):
`np.empty(shape=broadcast_arrays[0].shape, dtype=result_dtype)` — note
the *registered result dtype*.  Uninitialised memory is modelled by
`default`; `bufId` names the fresh allocation. -/
def allocate_output [Inhabited α] (broadcast_arrays : List (NDArr α δ))
    (result_dtype : δ) (bufId : Nat) : Except PyError (NDArr α δ) :=
  match broadcast_arrays with
  | [] => .error .indexError
  | a :: _ => .ok { bufId := bufId, isDevice := false, shape := a.shape,
                    zeroStride := false, dtype := result_dtype,
                    data := List.replicate (npProd a.shape) default }

/-- One elementwise read of argument `a` at thread index `i`: a
zero-strided argument always yields its single broadcast element. -/
def kernelRead [Inhabited α] (a : NDArr α δ) (i : Nat) : α :=
  if a.zeroStride then a.data.getD 0 default else a.data.getD i default

/-- Effect of launching the compiled elementwise kernel (an external
collaborator) over `count` elements: thread `i` applies the kernel's
scalar operation to the `i`-th element of every argument. -/
def launchElementwise [Inhabited α] (run : List α → α) (args : List (NDArr α δ))
    (count : Nat) : List α :=
  (List.range count).map fun i => run (args.map fun a => kernelRead a i)

/-- One dimension of the NumPy broadcasting rule: equal sizes, or a
size-1 dimension stretched to the other. -/
def bdim (a b : Nat) : Option Nat :=
  if a = b then some a
  else if a = 1 then some b
  else if b = 1 then some a
  else none

/-- Modelled from NumPy semantics: the materialised row-major broadcast
of a rank-2 array `a` (shape `[r, c]`) to the common shape `[R, C]`:
element `(i, j) = (t / C, t % C)` reads
`a[(i if r > 1 else 0), (j if c > 1 else 0)]`. -/
def bcastData [Inhabited α] (a : NDArr α δ) (R C : Nat) : List α :=
  (List.range (R * C)).map fun t =>
    a.data.getD ((if a.shape.headD 1 = 1 then 0 else t / C) * (a.shape.drop 1).headD 1
                 + (if (a.shape.drop 1).headD 1 = 1 then 0 else t % C)) default

/-- `_prepare_inputs` (lines 29-35): `np.broadcast_arrays`, modelled for
the two rank-2 host arguments the host-path claims exercise.  The
broadcast views are materialised contiguous (the later `ravel`/
`cuda.to_device` copy them), hence `zeroStride := false`. -/
def prepare_inputs2 [Inhabited α] (x y : NDArr α δ) :
    Except PyError (NDArr α δ × NDArr α δ) :=
  match x.shape, y.shape with
  | [m, k], [p, q] =>
    match bdim m p, bdim k q with
    | some R, some C =>
      .ok ({ x with shape := [R, C], zeroStride := false, data := bcastData x R C },
           { y with shape := [R, C], zeroStride := false, data := bcastData y R C })
    | _, _ =>
        .error (.valueError "shape mismatch: objects cannot be broadcast to a single shape")
  | _, _ => .error (.exception "host path modelled for rank-2 arrays")

/-- `_adjust_dimension` (lines 37-44): flatten a multi-dimensional array
to 1-D with `ravel()`; the model's arrays are contiguous, so this is a
view — same buffer, same row-major data. -/
def adjust_dimension (a : NDArr α δ) : NDArr α δ :=
  if a.shape.length > 1 then { a with shape := [npProd a.shape] } else a

/-- `CudaUFuncDispatcher.__call__` (lines 63-185) on already-converted
array arguments: kernel selection by dtype tuple, thread ceiling and
autotuning, then either the device-resident path (scalar promotion, 1-D
requirement, `_auto_device` staging, output allocation or validation,
launch with the element count as trailing kernel argument) or the host
path (broadcast, output allocation or capacity check, ravel, stage to
device, launch, copy back into the host buffer, reshape back).  The host
branch is modelled for the two-argument form the host-path claims
exercise.  `freshId` names the buffer allocated when `out` is absent.
Returns the result array together with the recorded launch geometry. -/
def call [Inhabited α] (functions : List δ → Option (δ × Kernel α))
    (max_blocksize : Nat) (args : List (NDArr α δ)) (out? : Option (NDArr α δ))
    (freshId : Nat) : Except PyError (NDArr α δ × LaunchInfo) := do
  let has_device_array_arg := args.any fun a => a.isDevice
  let dtypes := args.map fun a => a.dtype
  let rk ← get_function_by_dtype functions dtypes
  let result_dtype := rk.1
  let cuda_func := rk.2
  let max_threads ← effective_max_threads max_blocksize cuda_func
  if has_device_array_arg then
    let args := args.map promote_scalar
    let _ ← arguments_requirement args
    let args := args.map auto_device
    let element_count ← determine_element_count args
    let dims := determine_dimensions element_count max_threads
    let device_out ← match out? with
      | none => do
          let out_shape ← determine_output_shape args
          pure ({ bufId := freshId, isDevice := true, shape := out_shape,
                  zeroStride := false, dtype := result_dtype,
                  data := List.replicate (npProd out_shape) default } : NDArr α δ)
      | some o =>
          if o.isDevice then pure o
          else .error (.typeError "output array must be a device array")
    let written := launchElementwise cuda_func.run args element_count
                     ++ device_out.data.drop element_count
    pure ({ device_out with data := written }, ⟨dims.1, dims.2, some element_count⟩)
  else
    match args with
    | [x, y] => do
      let bxy ← prepare_inputs2 x y
      let element_count ← determine_element_count [bxy.1, bxy.2]
      let out ← match out? with
        | none => allocate_output [bxy.1, bxy.2] result_dtype freshId
        | some o =>
          if o.isDevice then .error (.typeError "output array must not be a device array")
          else if o.shape.headD 0 < bxy.1.shape.headD 0 then
            .error (.valueError "insufficient storage for output array")
          else pure o
      let reshape := out.shape
      let out := adjust_dimension out
      let bx := adjust_dimension bxy.1
      let yb := adjust_dimension bxy.2
      let dims := determine_dimensions element_count max_threads
      -- stage the flattened inputs (`cuda.to_device`), allocate a device
      -- twin of the raveled output (`cuda.device_array_like(out)`,
      -- uninitialised beyond what the kernel writes), launch, and copy
      -- the whole device buffer back into the host output
      let written := launchElementwise cuda_func.run [auto_device bx, auto_device yb]
                       element_count
                     ++ List.replicate (out.data.length - element_count) default
      pure ({ out with shape := reshape, data := written }, ⟨dims.1, dims.2, none⟩)
    | _ => .error (.exception "host path modelled for binary calls")

/-- Flat row-major read `a[i, j]` of a rank-2 array. -/
def at2 [Inhabited α] (a : NDArr α δ) (i j : Nat) : α :=
  a.data.getD (i * (a.shape.drop 1).headD 1 + j) default

end CudaUFuncDispatcher

/-! Concrete fixtures (dtype tags and elements are `Nat`, the kernel's
scalar operation is addition, hardware limit 8 threads per block, no
autotuner) used by the counterexample and code-bug evaluations. -/

/-- A binary addition kernel: `run [a, b] = a + b`. -/
def natAddKernel : Kernel Nat := ⟨fun l => l.foldl (· + ·) 0, 8, none⟩

/-- A kernel table registering only the dtype pair `(0, 0)`, with result
dtype `0`. -/
def natAddTable : List Nat → Option (Nat × Kernel Nat) :=
  fun ds => if ds = [0, 0] then some (0, natAddKernel) else none

/-- A device-resident 1-D array of length 2. -/
def devArr2 : NDArr Nat Nat := ⟨1, true, [2], false, 0, [10, 20]⟩

/-- A host-resident 1-D array of length 2. -/
def hostArr2 : NDArr Nat Nat := ⟨2, false, [2], false, 0, [1, 2]⟩

/-- A 0-d host array (a converted Python scalar). -/
def scalar0d : NDArr Nat Nat := ⟨3, false, [], false, 0, [7]⟩

/-- A device-resident 1-D array of length 3. -/
def devArr3 : NDArr Nat Nat := ⟨4, true, [3], false, 0, [1, 2, 3]⟩

/-- A device-resident 1-D array of length 4. -/
def devArr4 : NDArr Nat Nat := ⟨5, true, [4], false, 0, [4, 5, 6, 7]⟩

/-- A host column vector of shape `(2,1)`. -/
def hostCol2 : NDArr Nat Nat := ⟨6, false, [2, 1], false, 0, [3, 4]⟩

/-- A host row vector of shape `(1,3)`. -/
def hostRow3 : NDArr Nat Nat := ⟨7, false, [1, 3], false, 0, [5, 6, 7]⟩

/-- A caller-supplied host output buffer of the exact expected shape
`(2,3)`. -/
def hostOut6 : NDArr Nat Nat := ⟨9, false, [2, 3], false, 0, [0, 0, 0, 0, 0, 0]⟩

/-- Abbreviation (proof device): the flattened materialised broadcast of
`a` to `[m, n]` staged to the device, as the host path builds it. -/
def staged_bcast [Inhabited α] (a : NDArr α δ) (m n : Nat) : NDArr α δ :=
  CudaUFuncDispatcher.auto_device
    ⟨a.bufId, a.isDevice, [npProd [m, n]], false, a.dtype,
     CudaUFuncDispatcher.bcastData a m n⟩

/-- Abbreviation (proof device): the buffer contents the host-path launch
writes for the two broadcast inputs. -/
def host_written [Inhabited α] (k : Kernel α) (x y : NDArr α δ) (m n : Nat) : List α :=
  CudaUFuncDispatcher.launchElementwise k.run
    [staged_bcast x m n, staged_bcast y m n] (npProd [m, n])

namespace CudaGUFuncDispatcher

/-- The attribute state of a `CudaGUFuncDispatcher` instance.  `__init__`
(lines 279-281) stores the signature under `inputsig`/`outputsig`;
`input_symbols`/`output_symbols` are the attribute names that
`_determine_output_shape` reads (lines 300 and 308) — nothing in the
class ever assigns them, so Python attribute lookup can only fail:
both are `none` on every instance the constructor builds. -/
structure Obj where
  inputsig : List (List String)
  outputsig : List String
  input_symbols : Option (List (List String))
  output_symbols : Option (List String)

/-- `CudaGUFuncDispatcher.__init__` (lines 279-281):
`self.inputsig, self.outputsig = signature`. -/
def mk_dispatcher (signature : List (List String) × List String) : Obj :=
  { inputsig := signature.1, outputsig := signature.2,
    input_symbols := none, output_symbols := none }

/-- Body of the symbol-resolution loop (lines 302-306): check the
`shapeholders` dict for a conflicting earlier binding, then store the
value.  On a conflict Python raises
`ValueError("dimension %s mismatch: %d != %d", sym, val, old)` — with
commas, so the message and the values are separate unformatted
arguments. -/
def update_shapeholders (holders : List (String × Nat)) (sym : String) (val : Nat) :
    Except PyError (List (String × Nat)) :=
  match holders.lookup sym with
  | some old =>
      if old ≠ val then
        .error (.valueErrorArgs "dimension %s mismatch: %d != %d" sym val old)
      else .ok holders
  | none => .ok ((sym, val) :: holders)

/-- `_determine_output_shape` (gufunc, lines 297-310), with the Python
attribute lookups made explicit: `self.input_symbols` and
`self.output_symbols` are read, and since the constructor only assigns
`inputsig`/`outputsig`, the lookup raises `AttributeError`. -/
def determine_output_shape (self : Obj) (shapes : List (List Nat)) :
    Except PyError (List Nat) :=
  match self.input_symbols, self.output_symbols with
  | some input_symbols, some output_symbols => do
      let holders ← (List.zip shapes input_symbols).foldlM
        (fun h p => (List.zip p.2 p.1.tail).foldlM
          (fun h2 q => update_shapeholders h2 q.1 q.2) h) []
      let innershape ← output_symbols.mapM fun sym =>
        match holders.lookup sym with
        | some v => Except.ok v
        | none => Except.error PyError.keyError
      match shapes with
      | [] => .error .indexError
      | s0 :: _ =>
        match s0 with
        | [] => .error .indexError
        | d0 :: _ => .ok (d0 :: innershape)
  | _, _ => .error (.attributeError "input_symbols")

/-- `_allocate_output` (gufunc, lines 293-295):
`np.zeros(shape, broadcast_arrays[0].dtype)` — zero-filled and typed by
the *first input's dtype*; the `result_dtype` parameter is unused.  The
shape comes from `_determine_output_shape`. -/
def allocate_output [Zero α] (self : Obj) (broadcast_arrays : List (NDArr α δ))
    (result_dtype : δ) (bufId : Nat) : Except PyError (NDArr α δ) := do
  let shape ← determine_output_shape self (broadcast_arrays.map fun a => a.shape)
  match broadcast_arrays with
  | [] => .error .indexError
  | a :: _ => .ok { bufId := bufId, isDevice := false, shape := shape,
                    zeroStride := false, dtype := a.dtype,
                    data := List.replicate (npProd shape) 0 }

end CudaGUFuncDispatcher

/-- The matrix-multiply-like generalized signature
`(i,j),(j,k)->(i,k)`. -/
def matmulSig : List (List String) × List String :=
  ([["i", "j"], ["j", "k"]], ["i", "k"])

/-- A host array of shape `(3,4)` with dtype tag 0. -/
def g34 : NDArr Nat Nat := ⟨11, false, [3, 4], false, 0, List.replicate 12 1⟩

/-- A host array of shape `(4,5)` with dtype tag 0. -/
def g45 : NDArr Nat Nat := ⟨12, false, [4, 5], false, 0, List.replicate 20 1⟩

/-- The per-call schedule produced by the external shape-inference
engine consumed by `CUDAGenerializedUFunc`. -/
structure Schedule where
  output_shapes : List (List Nat)
  loopn : Nat
  loopdims : List Nat
  ishapes : List (List Nat)
  oshapes : List (List Nat)
  deriving DecidableEq, Repr

/-- The external schedule engine: its declared output count `nout`
and the `schedule(input_shapes)` method. -/
structure Engine where
  nout : Nat
  schedule : List (List Nat) → Schedule

/-- Launch data recorded for one generalized kernel launch: grid size,
block size, the loop element count, and the shapes of the buffers
passed to the kernel (inputs then output). -/
structure GuLaunch where
  ncta : Nat
  ntid : Nat
  nelem : Nat
  argShapes : List (List Nat)
  deriving DecidableEq, Repr

namespace CUDAGenerializedUFunc

/-- The state of a `CUDAGenerializedUFunc` instance. -/
structure Obj (α δ : Type) where
  kernelmap : List δ → Option (δ × Kernel α)
  engine : Engine
  max_blocksize : Nat

/-- `CUDAGenerializedUFunc.__init__` (lines 317-321):
`max_blocksize = 2**30`; `assert self.engine.nout == 1`. -/
def mk_gu (kernelmap : List δ → Option (δ × Kernel α)) (engine : Engine) :
    Except PyError (Obj α δ) :=
  if engine.nout = 1 then .ok ⟨kernelmap, engine, 2 ^ 30⟩
  else .error (.assertionError "only support single output")

/-- Device-array `reshape` (a view over the same buffer): valid when the
element count is unchanged. -/
def gureshape (a : NDArr α δ) (ns : List Nat) : Except PyError (NDArr α δ) :=
  if npProd ns = a.data.length then .ok { a with shape := ns }
  else .error (.valueError "total size of new array must be unchanged")

/-- `CUDAGenerializedUFunc._apply_autotuning` (lines 398-410), textually
duplicated from the elementwise dispatcher. -/
def apply_autotuning (autotune : Option Nat) (max_threads : Nat) : Except PyError Nat :=
  match autotune with
  | none => .ok max_threads
  | some best =>
      if best = 0 then
        .error (.exception "insufficient resources to run kernel at any thread-per-block.")
      else
        .ok best

/-- `CUDAGenerializedUFunc._launch_kernel` (lines 385-395): autotuning is
applied unconditionally; the grid size is the exact ceiling of
`nelem / ntid` (the source computes it from `float` division).  The
opaque compiled kernel's effect on the output buffer is the parameter
`gkrun`, applied to the launched input buffers and fitted to the output
buffer's size.  Returns the written output-buffer contents and the
launch record. -/
def launch_kernel [Inhabited α] (max_blocksize : Nat) (kernel : Kernel α)
    (gkrun : List (List α) → List α) (nelem : Nat) (params : List (NDArr α δ))
    (retval : NDArr α δ) : Except PyError (List α × GuLaunch) := do
  let max_threads := min kernel.MAX_THREADS_PER_BLOCK max_blocksize
  let ntid ← apply_autotuning kernel.autotune max_threads
  let ncta := (nelem + ntid - 1) / ntid
  let w := gkrun (params.map fun p => p.data)
  let written := (w ++ List.replicate (retval.data.length - w.length) default).take
    retval.data.length
  pure (written, ⟨ncta, ntid, nelem, (params.map fun p => p.shape) ++ [retval.shape]⟩)

/-- The fresh device output buffer
`cuda.device_array(shape=schedule.output_shapes[0], dtype=outdtype)`
(lines 357-359). -/
def fresh_retval [Inhabited α] (schedule : Schedule) (outdtype : δ) (freshId : Nat) :
    NDArr α δ :=
  { bufId := freshId, isDevice := true, shape := schedule.output_shapes.headD [],
    zeroStride := false, dtype := outdtype,
    data := List.replicate (npProd (schedule.output_shapes.headD [])) default }

/-- Abbreviation (proof device): the output-buffer contents
`launch_kernel` produces from the launched parameters. -/
def written_of {α δ : Type} [Inhabited α] (gkrun : List (List α) → List α)
    (newparams : List (NDArr α δ)) (retlen : Nat) : List α :=
  let w := gkrun (newparams.map fun p => p.data)
  (w ++ List.replicate (retlen - w.length) default).take retlen

/-- `CUDAGenerializedUFunc.__call__` (lines 323-383): residency
exclusivity check, schedule from the external engine, kernel lookup,
output check/allocation, then the three launch-shape cases on the number
of loop dimensions (lines 364-376), and output materialisation.
`freshId` names the device buffer allocated when needed; the fresh host
array created by `copy_to_host(None)` is named `freshId + 1`. -/
def call [Inhabited α] (self : Obj α δ) (gkrun : List (List α) → List α)
    (args : List (NDArr α δ)) (out? : Option (NDArr α δ)) (freshId : Nat) :
    Except PyError (NDArr α δ × GuLaunch) := do
  let is_device_array := args.map fun a => a.isDevice
  if (is_device_array.any id) ≠ (is_device_array.all id) then
    .error (.typeError "if device array is used, all arguments must be device array.")
  else do
    let need_cuda_conv := !(is_device_array.any id)
    -- `np.array(a)` copies host arguments; values and shapes are unchanged
    let inputs := args
    let input_shapes := inputs.map fun a => a.shape
    let schedule := self.engine.schedule input_shapes
    let idtypes := inputs.map fun a => a.dtype
    let rk ← match self.kernelmap idtypes with
      | some r => pure r
      | none => .error .keyError
    let outdtype := rk.1
    let kernel := rk.2
    let _ ← match out? with
      | some o =>
          if schedule.output_shapes.headD [] ≠ o.shape then
            Except.error (.valueError "output shape mismatch")
          else pure ()
      | none => pure ()
    -- prepare inputs: host-origin calls stage every input to the device
    let params := if need_cuda_conv then inputs.map CudaUFuncDispatcher.auto_device
                  else inputs
    -- allocate output
    let retval ← match out? with
      | none => pure (fresh_retval schedule outdtype freshId)
      | some o =>
          if need_cuda_conv then pure (fresh_retval schedule outdtype freshId)
          else pure o
    -- execute
    if schedule.loopn = 0 then
      .error (.assertionError "zero looping dimension")
    else do
      let wl ← if schedule.loopdims = [] then do
          let newparams ← params.mapM fun p => gureshape p (1 :: p.shape)
          let newretval ← gureshape retval (1 :: retval.shape)
          launch_kernel self.max_blocksize kernel gkrun schedule.loopn newparams newretval
        else if schedule.loopdims.length > 1 then do
          let odim := schedule.loopn
          let newparams ← (params.zip schedule.ishapes).mapM fun pc =>
            gureshape pc.1 (odim :: pc.2)
          let newretval ← gureshape retval (odim :: schedule.oshapes.headD [])
          launch_kernel self.max_blocksize kernel gkrun schedule.loopn newparams newretval
        else
          launch_kernel self.max_blocksize kernel gkrun schedule.loopn params retval
      let written := wl.1
      let launch := wl.2
      -- post execution: the kernel wrote through the reshaped view into
      -- retval's buffer
      if need_cuda_conv then
        match out? with
        | some o => pure ({ o with data := written }, launch)
        | none => pure ({ bufId := freshId + 1, isDevice := false,
                          shape := retval.shape, zeroStride := retval.zeroStride,
                          dtype := retval.dtype, data := written }, launch)
      else
        match out? with
        | none => pure ({ retval with data := written }, launch)
        | some o => pure ({ o with data := written }, launch)

end CUDAGenerializedUFunc

/-- A device array of shape `(2,3)` with dtype tag 0. -/
def gdev23 : NDArr Nat Nat := ⟨13, true, [2, 3], false, 0, [1, 2, 3, 4, 5, 6]⟩

/-- A fixed schedule with exactly one loop dimension (`loopdims = [2]`),
output shape `(2,4)`. -/
def sched1 : Schedule := ⟨[[2, 4]], 2, [2], [[3]], [[4]]⟩

/-- An engine that always returns `sched1` and declares one output. -/
def engine1 : Engine := ⟨1, fun _ => sched1⟩

/-- A concrete generalized-ufunc instance over `engine1`. -/
def guFix : CUDAGenerializedUFunc.Obj Nat Nat := ⟨natAddTable, engine1, 2 ^ 30⟩

/-- A concrete opaque kernel buffer function: fills the output buffer
with zeros of the required length. -/
def gkFix : List (List Nat) → List Nat := fun _ => List.replicate 8 0

/-- Lower bound of ceiling division: `((n + t - 1) / t) * t ≥ n`. -/
theorem ceil_div_mul_ge (n t : Nat) (ht : 1 ≤ t) : n ≤ ((n + t - 1) / t) * t := by
  obtain ⟨s, rfl⟩ : ∃ s, t = s + 1 := ⟨t - 1, by omega⟩
  have harg : n + (s + 1) - 1 = n + s := by omega
  rw [harg]
  have hdm := Nat.div_add_mod (n + s) (s + 1)
  have hmlt : (n + s) % (s + 1) < s + 1 := Nat.mod_lt _ (by omega)
  nlinarith [hdm, hmlt]

/-- The rational ceiling of `n / t` is the usual natural-number
ceiling-division formula. -/
theorem nat_ceil_div_eq (n t : Nat) (ht : 1 ≤ t) :
    Nat.ceil ((n : ℚ) / (t : ℚ)) = (n + t - 1) / t := by
  obtain ⟨s, rfl⟩ : ∃ s, t = s + 1 := ⟨t - 1, by omega⟩
  have harg : n + (s + 1) - 1 = n + s := by omega
  rw [harg]
  have hdm := Nat.div_add_mod (n + s) (s + 1)
  have hmlt : (n + s) % (s + 1) < s + 1 := Nat.mod_lt _ (by omega)
  have htposQ : (0 : ℚ) < ((s + 1 : Nat) : ℚ) := by positivity
  set q : Nat := (n + s) / (s + 1) with hq
  have hub : n ≤ q * (s + 1) := by nlinarith [hdm, hmlt]
  rcases Nat.eq_zero_or_pos n with hn | hn
  · subst hn
    have hq0 : q = 0 := by
      rw [hq]
      exact Nat.div_eq_of_lt (by omega)
    simp [hq0]
  · have hqpos : 1 ≤ q := by
      rw [hq]
      exact Nat.one_le_div_iff (by omega) |>.mpr (by omega)
    obtain ⟨q', hq'⟩ : ∃ q', q = q' + 1 := ⟨q - 1, by omega⟩
    have hle : q * (s + 1) ≤ n + s := Nat.div_mul_le_self (n + s) (s + 1)
    have hlb : (q - 1) * (s + 1) < n := by
      rw [hq']
      simp only [Nat.add_sub_cancel]
      nlinarith [hle, hq']
    rw [Nat.ceil_eq_iff (by omega)]
    constructor
    · rw [lt_div_iff₀ htposQ]
      exact_mod_cast hlb
    · rw [div_le_iff₀ htposQ]
      exact_mod_cast hub

/-- C3: For every `element_count >= 1` and `thread_ceiling >= 1`, the
geometry planner returns `threads_per_block = min(thread_ceiling,
element_count)` and `block_count = ceil(element_count / thread_ceiling)`,
and these satisfy `block_count * threads_per_block >= element_count` and
`threads_per_block <= thread_ceiling`. -/
theorem C3_geometry (n t : Nat) (hn : 1 ≤ n) (ht : 1 ≤ t) :
    CudaUFuncDispatcher.determine_dimensions n t
        = (Nat.ceil ((n : ℚ) / (t : ℚ)), min t n) ∧
    n ≤ (CudaUFuncDispatcher.determine_dimensions n t).1 *
        (CudaUFuncDispatcher.determine_dimensions n t).2 ∧
    (CudaUFuncDispatcher.determine_dimensions n t).2 ≤ t := by
  have hceil : Nat.ceil ((n : ℚ) / (t : ℚ)) = (n + t - 1) / t := nat_ceil_div_eq n t ht
  refine ⟨?_, ?_, ?_⟩
  · simp [CudaUFuncDispatcher.determine_dimensions, hceil]
  · simp only [CudaUFuncDispatcher.determine_dimensions]
    have hub : n ≤ ((n + t - 1) / t) * t := ceil_div_mul_ge n t ht
    rcases le_total t n with h | h
    · have hmin : min t n = t := min_eq_left h
      simpa [hmin] using hub
    · have hmin : min t n = n := min_eq_right h
      have hq1 : 1 ≤ (n + t - 1) / t := by
        exact Nat.one_le_div_iff (by omega) |>.mpr (by omega)
      have := Nat.le_mul_of_pos_left n (by omega : 0 < (n + t - 1) / t)
      simpa [hmin] using this
  · simp [CudaUFuncDispatcher.determine_dimensions]

/-- Witness for C3 at `element_count = 5`, `thread_ceiling = 2`. -/
theorem C3_geometry_witness :
    5 ≤ (CudaUFuncDispatcher.determine_dimensions 5 2).1 *
        (CudaUFuncDispatcher.determine_dimensions 5 2).2 ∧
    (CudaUFuncDispatcher.determine_dimensions 5 2).2 ≤ 2 ∧
    CudaUFuncDispatcher.determine_dimensions 5 2 = (3, 2) :=
  ⟨(C3_geometry 5 2 (by decide) (by decide)).2.1,
   (C3_geometry 5 2 (by decide) (by decide)).2.2, rfl⟩

theorem combineAll_nil (op : α → α → α) : combineAll op ([] : List α) = none := rfl

theorem combineAll_cons (op : α → α → α) (a : α) (l : List α) :
    combineAll op (a :: l) = opo op (some a) (combineAll op l) := rfl

theorem opo_assoc (op : α → α → α)
    (hassoc : ∀ a b c : α, op (op a b) c = op a (op b c)) :
    ∀ x y z : Option α, opo op (opo op x y) z = opo op x (opo op y z) := by
  intro x y z
  cases x <;> cases y <;> cases z <;> simp [opo, hassoc]

theorem opo_comm (op : α → α → α)
    (hcomm : ∀ a b : α, op a b = op b a) :
    ∀ x y : Option α, opo op x y = opo op y x := by
  intro x y
  cases x <;> cases y <;> simp [opo]
  exact hcomm _ _

/-- The medial/interchange law for `opo` under associativity and
commutativity: `(x⋆y)⋆(z⋆w) = (x⋆z)⋆(y⋆w)`. -/
theorem opo_medial (op : α → α → α)
    (hassoc : ∀ a b c : α, op (op a b) c = op a (op b c))
    (hcomm : ∀ a b : α, op a b = op b a)
    (x y z w : Option α) :
    opo op (opo op x y) (opo op z w) = opo op (opo op x z) (opo op y w) := by
  rw [opo_assoc op hassoc x y (opo op z w),
      ← opo_assoc op hassoc y z w,
      opo_comm op hcomm y z,
      opo_assoc op hassoc z y w,
      ← opo_assoc op hassoc x z (opo op y w)]

theorem combineAll_append (op : α → α → α)
    (hassoc : ∀ a b c : α, op (op a b) c = op a (op b c)) :
    ∀ l1 l2 : List α,
      combineAll op (l1 ++ l2) = opo op (combineAll op l1) (combineAll op l2) := by
  intro l1 l2
  induction l1 with
  | nil => rfl
  | cons a l1 ih =>
      rw [List.cons_append, combineAll_cons, ih, combineAll_cons,
          ← opo_assoc op hassoc]

theorem combineAll_zipWith (op : α → α → α)
    (hassoc : ∀ a b c : α, op (op a b) c = op a (op b c))
    (hcomm : ∀ a b : α, op a b = op b a) :
    ∀ l1 l2 : List α, l1.length = l2.length →
      combineAll op (List.zipWith op l1 l2)
        = opo op (combineAll op l1) (combineAll op l2) := by
  intro l1
  induction l1 with
  | nil =>
      intro l2 hlen
      have : l2 = [] := List.eq_nil_of_length_eq_zero hlen.symm
      subst this
      rfl
  | cons a l1 ih =>
      intro l2 hlen
      match l2 with
      | b :: l2 =>
          simp only [List.zipWith_cons_cons, combineAll_cons]
          rw [ih l2 (by simpa using hlen)]
          have hab : (some (op a b) : Option α) = opo op (some a) (some b) := rfl
          rw [hab, opo_medial op hassoc hcomm]

theorem combineAll_foldl (op : α → α → α)
    (hassoc : ∀ a b c : α, op (op a b) c = op a (op b c)) :
    ∀ (t : List α) (a : α),
      some (List.foldl op a t) = opo op (some a) (combineAll op t) := by
  intro t
  induction t with
  | nil => intro a; rfl
  | cons b t ih =>
      intro a
      rw [List.foldl_cons, ih (op a b), combineAll_cons,
          show (some (op a b) : Option α) = opo op (some a) (some b) from rfl,
          opo_assoc op hassoc]

/-- Invariant of the tree reduction: on a buffer of length at least 2
(and enough fuel), `__reduce` returns a single-element buffer holding
the `op`-combination of all elements — provided `op` is associative
*and* commutative. -/
theorem reduce_tree_spec (op : α → α → α)
    (hassoc : ∀ a b c : α, op (op a b) c = op a (op b c))
    (hcomm : ∀ a b : α, op a b = op b a) :
    ∀ (fuel : Nat) (mem : List α), 2 ≤ mem.length → mem.length ≤ fuel →
      ∃ v, CudaUFuncDispatcher.reduce_tree op fuel mem = [v] ∧
           combineAll op mem = some v := by
  intro fuel
  induction fuel with
  | zero => intro mem h2 hf; omega
  | succ fuel ih =>
    intro mem h2 hf
    by_cases hodd : mem.length % 2 = 0
    · -- even branch: split into two equal halves, combine pairwise
      have hlen_take : (mem.take (mem.length / 2)).length = mem.length / 2 := by
        rw [List.length_take]; omega
      have hlen_drop : (mem.drop (mem.length / 2)).length = mem.length / 2 := by
        rw [List.length_drop]; omega
      have hcomb : combineAll op
            (List.zipWith op (mem.take (mem.length / 2)) (mem.drop (mem.length / 2)))
          = combineAll op mem := by
        rw [combineAll_zipWith op hassoc hcomm _ _ (by rw [hlen_take, hlen_drop]),
            ← combineAll_append op hassoc, List.take_append_drop]
      have hzwlen : (List.zipWith op (mem.take (mem.length / 2))
            (mem.drop (mem.length / 2))).length = mem.length / 2 := by
        rw [List.length_zipWith, hlen_take, hlen_drop]; omega
      by_cases hgt : mem.length / 2 > 1
      · obtain ⟨v, hv, hcv⟩ := ih
          (List.zipWith op (mem.take (mem.length / 2)) (mem.drop (mem.length / 2)))
          (by omega) (by omega)
        refine ⟨v, ?_, ?_⟩
        · simp only [CudaUFuncDispatcher.reduce_tree]
          rw [if_neg (by omega), if_pos hgt]
          exact hv
        · rw [← hcomb]; exact hcv
      · -- n = 2: the zipped halves are already the single result element
        have hone : (List.zipWith op (mem.take (mem.length / 2))
            (mem.drop (mem.length / 2))).length = 1 := by omega
        obtain ⟨v, hv⟩ := List.length_eq_one.mp hone
        refine ⟨v, ?_, ?_⟩
        · simp only [CudaUFuncDispatcher.reduce_tree]
          rw [if_neg (by omega), if_neg hgt]
          exact hv
        · rw [← hcomb, hv]; rfl
    · -- odd branch: split off the last element, reduce the prefix, combine
      have hodd' : mem.length % 2 = 1 := by omega
      have h3 : 3 ≤ mem.length := by omega
      have hfat2 : 2 ≤ (mem.take (mem.length - 1)).length := by
        rw [List.length_take]; omega
      have hfatf : (mem.take (mem.length - 1)).length ≤ fuel := by
        rw [List.length_take]; omega
      obtain ⟨o, ho, hco⟩ := ih (mem.take (mem.length - 1)) hfat2 hfatf
      obtain ⟨t, ht⟩ : ∃ t, mem.drop (mem.length - 1) = [t] := by
        rw [← List.length_eq_one, List.length_drop]; omega
      refine ⟨op o t, ?_, ?_⟩
      · simp only [CudaUFuncDispatcher.reduce_tree]
        rw [if_pos (by omega), ho, ht]
        rfl
      · conv_lhs => rw [← List.take_append_drop (mem.length - 1) mem]
        rw [combineAll_append op hassoc, hco, ht]
        rfl

/-- C1 (amended): for every binary kernel whose operation is associative
*and commutative*, `reduce` over a length-0 buffer raises the
degenerate-input `TypeError`; over length 1 it returns the sole element
directly; and for every length `N >= 1` the recursive odd/even tree
reduction returns the value of a left-to-right fold of the kernel's
binary operation over the array.  (Associativity alone does not
suffice: see the counterexample.) -/
theorem C1_reduce_fold (op : α → α → α)
    (hassoc : ∀ a b c : α, op (op a b) c = op a (op b c))
    (hcomm : ∀ a b : α, op a b = op b a) :
    CudaUFuncDispatcher.reduce op ([] : List α)
        = Except.error (PyError.typeError "Reduction on an empty array.") ∧
    (∀ a : α, CudaUFuncDispatcher.reduce op [a] = Except.ok a) ∧
    (∀ (a : α) (t : List α),
        CudaUFuncDispatcher.reduce op (a :: t) = Except.ok (List.foldl op a t)) := by
  refine ⟨rfl, fun a => rfl, ?_⟩
  intro a t
  match t with
  | [] => rfl
  | b :: t' =>
    obtain ⟨v, hv, hcv⟩ := reduce_tree_spec op hassoc hcomm
      (a :: b :: t').length (a :: b :: t') (by simp) (le_refl _)
    have hfold : some (List.foldl op a (b :: t')) = combineAll op (a :: b :: t') := by
      rw [combineAll_cons, combineAll_foldl op hassoc]
    have hfv : List.foldl op a (b :: t') = v :=
      Option.some.inj (hfold.trans hcv)
    show (match (CudaUFuncDispatcher.reduce_tree op
          (a :: b :: t').length (a :: b :: t')).head? with
        | some v => Except.ok v
        | none => Except.error PyError.indexError) = Except.ok (List.foldl op a (b :: t'))
    rw [hv, hfv]
    rfl

/-- Witness for C1 (amended) with the commutative associative kernel
`Nat.add` on the length-3 array `[5, 7, 11]`. -/
theorem C1_reduce_fold_witness :
    CudaUFuncDispatcher.reduce (fun a b : Nat => a + b) [5, 7, 11] = Except.ok 23 :=
  (C1_reduce_fold (fun a b : Nat => a + b)
    (fun a b c => Nat.add_assoc a b c) (fun a b => Nat.add_comm a b)).2.2 5 [7, 11]

/-- C1 counterexample: the claim as stated — for *every* associative
binary kernel the tree reduction agrees with a left-to-right fold — is
false.  List concatenation is associative, but on the length-4 array
`[[0],[1],[2],[3]]` the odd/even split pattern combines element `i` with
element `i + n/2`, producing `[0,2,1,3]` where the fold gives
`[0,1,2,3]`. -/
theorem C1_counterexample :
    ¬ ∀ (op : List Nat → List Nat → List Nat),
        (∀ a b c, op (op a b) c = op a (op b c)) →
        ∀ (a : List Nat) (t : List (List Nat)), 2 ≤ (a :: t).length →
          CudaUFuncDispatcher.reduce op (a :: t) = Except.ok (List.foldl op a t) := by
  intro h
  have h1 := h (· ++ ·) (fun a b c => List.append_assoc a b c)
    [0] [[1], [2], [3]] (by decide)
  rw [show CudaUFuncDispatcher.reduce (· ++ ·) [[0], [1], [2], [3]]
        = Except.ok [0, 2, 1, 3] from rfl] at h1
  have h2 : ([0, 2, 1, 3] : List Nat) = [0, 1, 2, 3] := Except.ok.inj h1
  exact absurd h2 (by decide)

theorem except_bind_ok {β γ : Type} {e : Except PyError β} {f : β → Except PyError γ}
    {c : γ} (h : (e >>= f) = .ok c) : ∃ b, e = .ok b ∧ f b = .ok c := by
  cases e with
  | error err => exact Except.noConfusion h
  | ok b => exact ⟨b, rfl, h⟩

theorem auto_device_shape (a : NDArr α δ) :
    (CudaUFuncDispatcher.auto_device a).shape = a.shape := by
  unfold CudaUFuncDispatcher.auto_device
  split <;> rfl

theorem auto_device_zeroStride (a : NDArr α δ) :
    (CudaUFuncDispatcher.auto_device a).zeroStride = a.zeroStride := by
  unfold CudaUFuncDispatcher.auto_device
  split <;> rfl

theorem auto_device_data (a : NDArr α δ) :
    (CudaUFuncDispatcher.auto_device a).data = a.data := by
  unfold CudaUFuncDispatcher.auto_device
  split <;> rfl

theorem except_ok_bind {β γ : Type} (b : β) (f : β → Except PyError γ) :
    (Except.ok b >>= f : Except PyError γ) = f b := rfl

theorem except_pure_bind {β γ : Type} (b : β) (f : β → Except PyError γ) :
    ((pure b : Except PyError β) >>= f) = f b := rfl

theorem bdim_right_one (m : Nat) : CudaUFuncDispatcher.bdim m 1 = some m := by
  unfold CudaUFuncDispatcher.bdim
  by_cases h : m = 1 <;> simp [h]

theorem bdim_one_left (n : Nat) : CudaUFuncDispatcher.bdim 1 n = some n := by
  unfold CudaUFuncDispatcher.bdim
  by_cases h : (1 : Nat) = n <;> simp [h]

theorem getD_range_map [Inhabited α] (f : Nat → α) (N t : Nat) (ht : t < N) :
    ((List.range N).map f).getD t default = f t := by
  rw [List.getD_eq_getElem?_getD, List.getElem?_map, List.getElem?_range ht]
  rfl

theorem row_major_lt (m n i j : Nat) (hi : i < m) (hj : j < n) :
    i * n + j < m * n :=
  lt_of_lt_of_le
    (by omega : i * n + j < i * n + n)
    (by
      have h1 : i * n + n = (i + 1) * n := by ring
      rw [h1]
      exact Nat.mul_le_mul_right n (Nat.succ_le_of_lt hi))

/-- Reading the materialised broadcast of a column vector (shape `[m,1]`)
at flat position `i * n + j` yields element `i` of the vector. -/
theorem bcastData_col [Inhabited α] (x : NDArr α δ) (m n i j : Nat)
    (hxs : x.shape = [m, 1]) (hi : i < m) (hj : j < n) :
    (CudaUFuncDispatcher.bcastData x m n).getD (i * n + j) default
      = x.data.getD i default := by
  unfold CudaUFuncDispatcher.bcastData
  rw [getD_range_map _ _ _ (row_major_lt m n i j hi hj), hxs]
  simp only [List.headD_cons, List.drop_succ_cons, List.drop_zero, mul_one]
  by_cases hm : m = 1
  · subst hm
    have hi0 : i = 0 := by omega
    subst hi0
    simp
  · rw [if_neg hm]
    have hn : 0 < n := by omega
    have hdiv : (i * n + j) / n = i := by
      rw [Nat.add_comm, Nat.add_mul_div_right _ _ hn, Nat.div_eq_of_lt hj]
      omega
    simp [hdiv]

/-- Reading the materialised broadcast of a row vector (shape `[1,n]`)
at flat position `i * n + j` yields element `j` of the vector. -/
theorem bcastData_row [Inhabited α] (y : NDArr α δ) (m n i j : Nat)
    (hys : y.shape = [1, n]) (hi : i < m) (hj : j < n) :
    (CudaUFuncDispatcher.bcastData y m n).getD (i * n + j) default
      = y.data.getD j default := by
  unfold CudaUFuncDispatcher.bcastData
  rw [getD_range_map _ _ _ (row_major_lt m n i j hi hj), hys]
  simp only [List.headD_cons, List.drop_succ_cons, List.drop_zero, if_pos rfl,
    zero_mul, zero_add]
  by_cases hn : n = 1
  · subst hn
    have hj0 : j = 0 := by omega
    subst hj0
    simp
  · rw [if_neg hn]
    have hnpos : 0 < n := by omega
    have hmod : (i * n + j) % n = j := by
      rw [Nat.add_comm, Nat.add_mul_mod_self_right, Nat.mod_eq_of_lt hj]
    simp [hmod]

/-- C2: for every pair of host arrays `A` of shape `(m,1)` and `B` of
shape `(1,n)` with a registered dtype pair, the elementwise host-path
call returns an array of shape `(m,n)` whose element at `(i,j)` equals
the kernel's operation applied to `A[i,0]` and `B[0,j]`. -/
theorem npProd_pair (m n : Nat) : npProd [m, n] = m * n := by simp [npProd]

/-- Evaluation of the host path with `out` absent: allocate `[m, n]`,
launch, copy back. -/
theorem host_call_none_eval [Inhabited α]
    (functions : List δ → Option (δ × Kernel α)) (max_blocksize : Nat)
    (x y : NDArr α δ) (m n : Nat) (freshId : Nat) (rd : δ) (k : Kernel α) (nt : Nat)
    (hx : x.isDevice = false) (hy : y.isDevice = false)
    (hxs : x.shape = [m, 1]) (hys : y.shape = [1, n])
    (hlookup : functions [x.dtype, y.dtype] = some (rd, k))
    (hmt : CudaUFuncDispatcher.effective_max_threads max_blocksize k = Except.ok nt) :
    CudaUFuncDispatcher.call functions max_blocksize [x, y] none freshId
      = Except.ok
          (⟨freshId, false, [m, n], false, rd, host_written k x y m n⟩,
           ⟨(CudaUFuncDispatcher.determine_dimensions (npProd [m, n]) nt).1,
            (CudaUFuncDispatcher.determine_dimensions (npProd [m, n]) nt).2,
            none⟩) := by
  rw [CudaUFuncDispatcher.call]
  simp only [List.any_cons, List.any_nil, hx, hy, Bool.or_self, Bool.or_false,
    Bool.false_eq_true, if_false, List.map_cons, List.map_nil,
    CudaUFuncDispatcher.get_function_by_dtype, hlookup, except_ok_bind]
  rw [hmt]
  simp only [except_ok_bind, CudaUFuncDispatcher.prepare_inputs2, hxs, hys,
    hx, hy, bdim_right_one, bdim_one_left,
    CudaUFuncDispatcher.determine_element_count,
    CudaUFuncDispatcher.allocate_output, CudaUFuncDispatcher.adjust_dimension,
    List.length_cons, List.length_nil, gt_iff_lt, zero_add, one_add_one_eq_two,
    one_lt_two, if_true, List.length_replicate, Nat.sub_self,
    List.replicate_zero, List.append_nil, host_written, staged_bcast, hx]
  rfl

/-- Evaluation of the host path with a caller-supplied output buffer of
the exact expected shape: the same data is written into that buffer and
it is returned (reshaped view, same buffer identity). -/
theorem host_call_some_eval [Inhabited α]
    (functions : List δ → Option (δ × Kernel α)) (max_blocksize : Nat)
    (x y o : NDArr α δ) (m n : Nat) (freshId : Nat) (rd : δ) (k : Kernel α) (nt : Nat)
    (hx : x.isDevice = false) (hy : y.isDevice = false)
    (hxs : x.shape = [m, 1]) (hys : y.shape = [1, n])
    (hlookup : functions [x.dtype, y.dtype] = some (rd, k))
    (hmt : CudaUFuncDispatcher.effective_max_threads max_blocksize k = Except.ok nt)
    (ho : o.isDevice = false) (hos : o.shape = [m, n])
    (hol : o.data.length = m * n) :
    CudaUFuncDispatcher.call functions max_blocksize [x, y] (some o) freshId
      = Except.ok
          (⟨o.bufId, o.isDevice, [m, n], o.zeroStride, o.dtype,
            host_written k x y m n⟩,
           ⟨(CudaUFuncDispatcher.determine_dimensions (npProd [m, n]) nt).1,
            (CudaUFuncDispatcher.determine_dimensions (npProd [m, n]) nt).2,
            none⟩) := by
  rw [CudaUFuncDispatcher.call]
  simp only [List.any_cons, List.any_nil, hx, hy, Bool.or_self, Bool.or_false,
    Bool.false_eq_true, if_false, List.map_cons, List.map_nil,
    CudaUFuncDispatcher.get_function_by_dtype, hlookup, except_ok_bind]
  rw [hmt]
  simp only [except_ok_bind, CudaUFuncDispatcher.prepare_inputs2, hxs, hys,
    hx, hy, ho, bdim_right_one, bdim_one_left,
    CudaUFuncDispatcher.determine_element_count,
    CudaUFuncDispatcher.adjust_dimension, hos, List.headD_cons,
    lt_self_iff_false, List.length_cons, List.length_nil, gt_iff_lt, zero_add,
    one_add_one_eq_two, one_lt_two, if_true, if_false, hol, npProd_pair,
    Nat.sub_self, List.replicate_zero, List.append_nil, host_written,
    staged_bcast]
  rw [if_neg Bool.false_ne_true]
  simp only [except_pure_bind, except_ok_bind,
    CudaUFuncDispatcher.adjust_dimension, hos, List.length_cons,
    List.length_nil, gt_iff_lt, zero_add, one_add_one_eq_two, one_lt_two,
    if_true, hol, npProd_pair, Nat.sub_self, List.replicate_zero,
    List.append_nil, host_written, staged_bcast, hx, hy, ho]
  rfl

/-- Reading the host-path launch result at flat position `i * n + j`
yields the kernel applied to `A[i,0]` and `B[0,j]`. -/
theorem host_written_getD [Inhabited α] (k : Kernel α) (x y : NDArr α δ)
    (m n i j : Nat) (hxs : x.shape = [m, 1]) (hys : y.shape = [1, n])
    (hi : i < m) (hj : j < n) :
    (host_written k x y m n).getD (i * n + j) default
      = k.run [x.data.getD i default, y.data.getD j default] := by
  have hmn : npProd [m, n] = m * n := npProd_pair m n
  rw [host_written, CudaUFuncDispatcher.launchElementwise.eq_def, hmn,
    getD_range_map _ _ _ (row_major_lt m n i j hi hj)]
  simp only [List.map_cons, List.map_nil, CudaUFuncDispatcher.kernelRead,
    staged_bcast, auto_device_zeroStride, auto_device_data, Bool.false_eq_true,
    if_false]
  rw [bcastData_col x m n i j hxs hi hj, bcastData_row y m n i j hys hi hj]

/-- C2: for every pair of host arrays `A` of shape `(m,1)` and `B` of
shape `(1,n)` with a registered dtype pair, the elementwise host-path
call returns an array of shape `(m,n)` whose element at `(i,j)` equals
the kernel's operation applied to `A[i,0]` and `B[0,j]`. -/
theorem C2_broadcast [Inhabited α]
    (functions : List δ → Option (δ × Kernel α)) (max_blocksize : Nat)
    (x y : NDArr α δ) (m n : Nat) (freshId : Nat) (rd : δ) (k : Kernel α) (nt : Nat)
    (hx : x.isDevice = false) (hy : y.isDevice = false)
    (hxs : x.shape = [m, 1]) (hys : y.shape = [1, n])
    (hlookup : functions [x.dtype, y.dtype] = some (rd, k))
    (hmt : CudaUFuncDispatcher.effective_max_threads max_blocksize k = Except.ok nt) :
    ∃ r li,
      CudaUFuncDispatcher.call functions max_blocksize [x, y] none freshId
        = Except.ok (r, li) ∧
      r.shape = [m, n] ∧
      ∀ i j, i < m → j < n →
        CudaUFuncDispatcher.at2 r i j
          = k.run [CudaUFuncDispatcher.at2 x i 0, CudaUFuncDispatcher.at2 y 0 j] := by
  refine ⟨_, _,
    host_call_none_eval functions max_blocksize x y m n freshId rd k nt
      hx hy hxs hys hlookup hmt, rfl, ?_⟩
  intro i j hi hj
  simp only [CudaUFuncDispatcher.at2, List.drop_succ_cons, List.drop_zero,
    List.headD_cons, hxs, hys, mul_one, add_zero, zero_mul, zero_add]
  exact host_written_getD k x y m n i j hxs hys hi hj

/-- Witness for C2 with the addition kernel, `A = hostCol2` of shape
`(2,1)` and `B = hostRow3` of shape `(1,3)`. -/
theorem C2_broadcast_witness :
    ∃ r li,
      CudaUFuncDispatcher.call natAddTable (2 ^ 30) [hostCol2, hostRow3] none 100
        = Except.ok (r, li) ∧
      r.shape = [2, 3] ∧
      ∀ i j, i < 2 → j < 3 →
        CudaUFuncDispatcher.at2 r i j
          = natAddKernel.run
              [CudaUFuncDispatcher.at2 hostCol2 i 0,
               CudaUFuncDispatcher.at2 hostRow3 0 j] :=
  C2_broadcast natAddTable (2 ^ 30) hostCol2 hostRow3 2 3 100 0 natAddKernel 8
    rfl rfl rfl rfl rfl rfl

/-- C9: for the host-path elementwise call, supplying a pre-allocated
output buffer of the exact expected shape via `out=` yields a result
equal to the same call without `out=`, and the returned value is that
same buffer (same buffer identity `bufId`), not the fresh allocation
`freshId`. -/
theorem C9_out_identity [Inhabited α]
    (functions : List δ → Option (δ × Kernel α)) (max_blocksize : Nat)
    (x y o : NDArr α δ) (m n : Nat) (freshId : Nat) (rd : δ) (k : Kernel α) (nt : Nat)
    (hx : x.isDevice = false) (hy : y.isDevice = false)
    (hxs : x.shape = [m, 1]) (hys : y.shape = [1, n])
    (hlookup : functions [x.dtype, y.dtype] = some (rd, k))
    (hmt : CudaUFuncDispatcher.effective_max_threads max_blocksize k = Except.ok nt)
    (ho : o.isDevice = false) (hos : o.shape = [m, n])
    (hol : o.data.length = m * n) (hfresh : o.bufId ≠ freshId) :
    ∃ r li r' li',
      CudaUFuncDispatcher.call functions max_blocksize [x, y] (some o) freshId
        = Except.ok (r, li) ∧
      CudaUFuncDispatcher.call functions max_blocksize [x, y] none freshId
        = Except.ok (r', li') ∧
      r.bufId = o.bufId ∧ r.shape = r'.shape ∧ r.data = r'.data ∧
      r'.bufId = freshId ∧ r.bufId ≠ freshId := by
  refine ⟨_, _, _, _,
    host_call_some_eval functions max_blocksize x y o m n freshId rd k nt
      hx hy hxs hys hlookup hmt ho hos hol,
    host_call_none_eval functions max_blocksize x y m n freshId rd k nt
      hx hy hxs hys hlookup hmt,
    rfl, rfl, rfl, rfl, hfresh⟩

/-- Witness for C9: the addition kernel on `(2,1) × (1,3)` inputs with
the exact-shape output buffer `hostOut6`. -/
theorem C9_out_identity_witness :
    ∃ r li r' li',
      CudaUFuncDispatcher.call natAddTable (2 ^ 30) [hostCol2, hostRow3]
          (some hostOut6) 100 = Except.ok (r, li) ∧
      CudaUFuncDispatcher.call natAddTable (2 ^ 30) [hostCol2, hostRow3]
          none 100 = Except.ok (r', li') ∧
      r.bufId = hostOut6.bufId ∧ r.shape = r'.shape ∧ r.data = r'.data ∧
      r'.bufId = 100 ∧ r.bufId ≠ 100 :=
  C9_out_identity natAddTable (2 ^ 30) hostCol2 hostRow3 hostOut6 2 3 100 0
    natAddKernel 8 rfl rfl rfl rfl rfl rfl rfl rfl rfl (by decide)

/-- C8 (code-bug evaluation): on the device path with two non-zero-stride
arguments of lengths 3 and 4, the length-mismatch branch of
`_arguments_requirement` does raise — but the raise statement's
`"arg %d should have length %d" % ms` formats a 2-placeholder string
with a single integer, so the call fails with
`TypeError: not enough arguments for format string` instead of the
intended `ValueError` naming the offending argument index and the
expected length. -/
theorem C8_length_mismatch_format_error :
    CudaUFuncDispatcher.call natAddTable (2 ^ 30) [devArr3, devArr4] none 100
      = Except.error (.typeError "not enough arguments for format string") := rfl

/-- C4 counterexample: a call to the elementwise dispatcher mixing a
device-resident argument (`devArr2`) and a host-resident argument
(`hostArr2`) does *not* fail with a type error: it takes the device
path, `cuda._auto_device` stages the host argument, and the kernel
launches successfully, returning the elementwise sums `[11, 22]`. -/
theorem C4_counterexample :
    CudaUFuncDispatcher.call natAddTable (2 ^ 30) [devArr2, hostArr2] none 100
      = Except.ok (⟨100, true, [2], false, 0, [11, 22]⟩, ⟨1, 2, some 2⟩) := rfl

/-- C5 counterexample: on the device path with first argument a promoted
scalar (zero-stride, length 1) and second argument a non-zero-stride
device array of length 2, the common non-zero-stride length is 2, but
the element count used for geometry, output allocation and the trailing
kernel argument is `np.prod(args[0].shape) = 1`: the call returns a
1-element output and passes `1` — not `2` — as the count. -/
theorem C5_counterexample :
    (CudaUFuncDispatcher.call natAddTable (2 ^ 30) [scalar0d, devArr2] none 100
       = Except.ok (⟨100, true, [1], false, 0, [17]⟩, ⟨1, 1, some 1⟩)) ∧
    (1 : Nat) ≠ 2 :=
  ⟨rfl, by decide⟩

/-- C5 (amended): on the device-resident elementwise path, the element
count used for geometry, output allocation and the kernel's trailing
count argument equals `np.prod` of the *first* argument's shape after
scalar promotion (which coincides with the common non-zero-stride length
exactly when the first argument has non-zero stride). -/
theorem C5_element_count_first_arg [Inhabited α]
    (functions : List δ → Option (δ × Kernel α)) (max_blocksize : Nat)
    (a0 : NDArr α δ) (rest : List (NDArr α δ)) (out? : Option (NDArr α δ))
    (freshId : Nat) (r : NDArr α δ) (li : LaunchInfo)
    (hdev : ((a0 :: rest).any fun a => a.isDevice) = true)
    (hcall : CudaUFuncDispatcher.call functions max_blocksize (a0 :: rest) out? freshId
        = .ok (r, li)) :
    li.countArg = some (npProd (CudaUFuncDispatcher.promote_scalar a0).shape) ∧
    (out? = none → r.shape = (CudaUFuncDispatcher.promote_scalar a0).shape) := by
  cases out? with
  | none =>
    rw [CudaUFuncDispatcher.call] at hcall
    simp only [hdev, if_true] at hcall
    obtain ⟨rk, hrk, hcall⟩ := except_bind_ok hcall
    obtain ⟨mt, hmt, hcall⟩ := except_bind_ok hcall
    obtain ⟨u, hu, hcall⟩ := except_bind_ok hcall
    obtain ⟨ec, hec, hcall⟩ := except_bind_ok hcall
    have hecv : ec = npProd (CudaUFuncDispatcher.promote_scalar a0).shape := by
      simp only [List.map_cons, CudaUFuncDispatcher.determine_element_count,
        auto_device_shape] at hec
      exact (Except.ok.inj hec).symm
    obtain ⟨osh, hosh, hcall⟩ := except_bind_ok hcall
    obtain ⟨y, hy, hcall⟩ := except_bind_ok hcall
    have hoshv : osh = (CudaUFuncDispatcher.promote_scalar a0).shape := by
      simp only [List.map_cons, CudaUFuncDispatcher.determine_output_shape,
        auto_device_shape] at hosh
      exact (Except.ok.inj hosh).symm
    have hyv := Except.ok.inj hy
    have hpair := Except.ok.inj hcall
    injection hpair with hr hli
    refine ⟨?_, fun _ => ?_⟩
    · rw [← hli, hecv]
    · rw [← hr, ← hyv, hoshv]
  | some o =>
    rw [CudaUFuncDispatcher.call] at hcall
    simp only [hdev, if_true] at hcall
    obtain ⟨rk, hrk, hcall⟩ := except_bind_ok hcall
    obtain ⟨mt, hmt, hcall⟩ := except_bind_ok hcall
    obtain ⟨u, hu, hcall⟩ := except_bind_ok hcall
    obtain ⟨ec, hec, hcall⟩ := except_bind_ok hcall
    have hecv : ec = npProd (CudaUFuncDispatcher.promote_scalar a0).shape := by
      simp only [List.map_cons, CudaUFuncDispatcher.determine_element_count,
        auto_device_shape] at hec
      exact (Except.ok.inj hec).symm
    by_cases ho : o.isDevice = true
    · rw [if_pos ho] at hcall
      obtain ⟨y, hy, hcall⟩ := except_bind_ok hcall
      have hpair := Except.ok.inj hcall
      injection hpair with hr hli
      refine ⟨?_, fun hnone => Option.noConfusion hnone⟩
      rw [← hli, hecv]
    · rw [if_neg ho] at hcall
      obtain ⟨y, hy, _⟩ := except_bind_ok hcall
      exact Except.noConfusion hy

/-- Witness for C5 (amended): the zero-stride scalar first argument of
`C5_counterexample`'s call gives element count
`np.prod(args[0].shape) = 1`. -/
theorem C5_element_count_first_arg_witness :
    (LaunchInfo.mk 1 1 (some 1)).countArg
      = some (npProd (CudaUFuncDispatcher.promote_scalar scalar0d).shape) :=
  (C5_element_count_first_arg natAddTable (2 ^ 30) scalar0d [devArr2] none 100
    ⟨100, true, [1], false, 0, [17]⟩ ⟨1, 1, some 1⟩ (by rfl) (by rfl)).1

/-- C6 (code-bug evaluation): the gufunc shape resolver never reaches
its symbol-resolution loop.  `__init__` stores the signature as
`self.inputsig`/`self.outputsig`, but `_determine_output_shape` reads
`self.input_symbols`/`self.output_symbols`, so for the matrix-multiply
signature `(i,j),(j,k)->(i,k)` every call — the mismatching shapes
`(3,4),(5,5)` as well as the matching `(3,4),(4,5)` — raises
`AttributeError` instead of resolving symbols or reporting the
`j` dimension mismatch. -/
theorem C6_attribute_error :
    CudaGUFuncDispatcher.determine_output_shape
        (CudaGUFuncDispatcher.mk_dispatcher matmulSig) [[3, 4], [5, 5]]
      = Except.error (PyError.attributeError "input_symbols") ∧
    CudaGUFuncDispatcher.determine_output_shape
        (CudaGUFuncDispatcher.mk_dispatcher matmulSig) [[3, 4], [4, 5]]
      = Except.error (PyError.attributeError "input_symbols") :=
  ⟨rfl, rfl⟩

/-- C10 (code-bug evaluation): the gufunc `_allocate_output` is written
as `np.zeros(shape, broadcast_arrays[0].dtype)` — zero-filled, first
input's dtype, ignoring its `result_dtype` parameter — unlike the
elementwise `np.empty(shape, result_dtype)`; but the shape computation
it invokes raises `AttributeError('input_symbols')`, so no host-path
generalized call ever reaches the allocation.  The elementwise
allocator, by contrast, returns an uninitialised buffer with the
registered result dtype (here `1`, not the input dtype `0`). -/
theorem C10_allocate_output :
    CudaGUFuncDispatcher.allocate_output
        (CudaGUFuncDispatcher.mk_dispatcher matmulSig) [g34, g45] 1 50
      = Except.error (PyError.attributeError "input_symbols") ∧
    CudaUFuncDispatcher.allocate_output [g34] 1 50
      = Except.ok ⟨50, false, [3, 4], false, 1, List.replicate 12 (default : Nat)⟩ :=
  ⟨rfl, rfl⟩

/-- C4 (amended): the generalized ufunc enforces residency exclusivity —
every `CUDAGenerializedUFunc.__call__` whose arguments mix device and
host residency fails with the type error before any kernel launch. -/
theorem C4_gu_mixed_type_error [Inhabited α] (self : CUDAGenerializedUFunc.Obj α δ)
    (gkrun : List (List α) → List α) (args : List (NDArr α δ))
    (out? : Option (NDArr α δ)) (freshId : Nat)
    (hmix : ((args.map fun a => a.isDevice).any id)
        ≠ ((args.map fun a => a.isDevice).all id)) :
    CUDAGenerializedUFunc.call self gkrun args out? freshId
      = Except.error
          (.typeError "if device array is used, all arguments must be device array.") := by
  rw [CUDAGenerializedUFunc.call]
  rw [if_pos hmix]

/-- Witness for C4 (amended): a generalized call mixing the device array
`devArr2` and the host array `hostArr2` raises the type error. -/
theorem C4_gu_mixed_type_error_witness :
    CUDAGenerializedUFunc.call guFix gkFix [devArr2, hostArr2] none 100
      = Except.error
          (.typeError "if device array is used, all arguments must be device array.") :=
  C4_gu_mixed_type_error guFix gkFix [devArr2, hostArr2] none 100 (by decide)

theorem except_pure_eq_ok {β : Type} (b : β) :
    (pure b : Except PyError β) = Except.ok b := rfl

theorem foldl_mul_shift : ∀ (s : List Nat) (x : Nat),
    List.foldl (· * ·) x s = x * List.foldl (· * ·) 1 s := by
  intro s
  induction s with
  | nil => intro x; simp
  | cons b s ih =>
      intro x
      simp only [List.foldl_cons]
      rw [ih (x * b), ih (1 * b), one_mul, Nat.mul_assoc]

theorem npProd_cons (a : Nat) (s : List Nat) : npProd (a :: s) = a * npProd s := by
  simp only [npProd, List.foldl_cons]
  rw [foldl_mul_shift s (1 * a), one_mul]

theorem npProd_one_cons (s : List Nat) : npProd (1 :: s) = npProd s := by
  rw [npProd_cons, one_mul]

theorem mapM_gureshape_self [Inhabited α] (f : NDArr α δ → List Nat) :
    ∀ (l : List (NDArr α δ)), (∀ a ∈ l, npProd (f a) = a.data.length) →
      l.mapM (fun p => CUDAGenerializedUFunc.gureshape p (f p))
        = Except.ok (l.map fun p => { p with shape := f p }) := by
  intro l
  induction l with
  | nil => intro h; rfl
  | cons a t ih =>
      intro h
      have ha : CUDAGenerializedUFunc.gureshape a (f a)
          = Except.ok { a with shape := f a } := by
        unfold CUDAGenerializedUFunc.gureshape
        rw [if_pos (h a (List.mem_cons_self a t))]
      rw [List.mapM_cons, ha, except_ok_bind,
        ih (fun b hb => h b (List.mem_cons_of_mem a hb)), except_ok_bind]
      rfl

theorem mapM_gureshape_zip [Inhabited α] (loopn : Nat) :
    ∀ (l : List (NDArr α δ × List Nat)),
      (∀ pc ∈ l, npProd (loopn :: pc.2) = pc.1.data.length) →
      l.mapM (fun pc => CUDAGenerializedUFunc.gureshape pc.1 (loopn :: pc.2))
        = Except.ok (l.map fun pc => { pc.1 with shape := loopn :: pc.2 }) := by
  intro l
  induction l with
  | nil => intro h; rfl
  | cons a t ih =>
      intro h
      have ha : CUDAGenerializedUFunc.gureshape a.1 (loopn :: a.2)
          = Except.ok { a.1 with shape := loopn :: a.2 } := by
        unfold CUDAGenerializedUFunc.gureshape
        rw [if_pos (h a (List.mem_cons_self a t))]
      rw [List.mapM_cons, ha, except_ok_bind,
        ih (fun b hb => h b (List.mem_cons_of_mem a hb)), except_ok_bind]
      rfl

/-- C7: in the schedule-driven generalized call, the launch shape is
chosen by the number of loop dimensions: zero loop dimensions prefix a
size-1 axis to every input and the output and launch once over `loopn`
elements; exactly one loop dimension launches directly with the existing
shapes and no reshape; more than one loop dimension collapses all loop
dimensions into a single leading axis of size `loopn` on every input and
the output before a single launch. -/
theorem C7_launch_shapes [Inhabited α] (self : CUDAGenerializedUFunc.Obj α δ)
    (gkrun : List (List α) → List α) (args : List (NDArr α δ)) (freshId : Nat)
    (sched : Schedule) (od : δ) (k : Kernel α) (ntid : Nat)
    (hne : args ≠ [])
    (hdev : ∀ a ∈ args, a.isDevice = true)
    (hkm : self.kernelmap (args.map fun a => a.dtype) = some (od, k))
    (hsch : self.engine.schedule (args.map fun a => a.shape) = sched)
    (hloop : sched.loopn ≠ 0)
    (hat : CUDAGenerializedUFunc.apply_autotuning k.autotune
        (min k.MAX_THREADS_PER_BLOCK self.max_blocksize) = Except.ok ntid) :
    (sched.loopdims = [] →
      (∀ a ∈ args, a.data.length = npProd a.shape) →
      ∃ res L, CUDAGenerializedUFunc.call self gkrun args none freshId
          = Except.ok (res, L) ∧
        L.nelem = sched.loopn ∧
        L.argShapes = (args.map fun a => 1 :: a.shape)
          ++ [1 :: sched.output_shapes.headD []]) ∧
    (sched.loopdims.length = 1 →
      ∃ res L, CUDAGenerializedUFunc.call self gkrun args none freshId
          = Except.ok (res, L) ∧
        L.nelem = sched.loopn ∧
        L.argShapes = (args.map fun a => a.shape)
          ++ [sched.output_shapes.headD []]) ∧
    (1 < sched.loopdims.length →
      (∀ pc ∈ args.zip sched.ishapes, npProd (sched.loopn :: pc.2) = pc.1.data.length) →
      npProd (sched.loopn :: sched.oshapes.headD [])
        = npProd (sched.output_shapes.headD []) →
      ∃ res L, CUDAGenerializedUFunc.call self gkrun args none freshId
          = Except.ok (res, L) ∧
        L.nelem = sched.loopn ∧
        L.argShapes = ((args.zip sched.ishapes).map fun pc => sched.loopn :: pc.2)
          ++ [sched.loopn :: sched.oshapes.headD []]) := by
  have hany : ((args.map fun a => a.isDevice).any id) = true := by
    cases args with
    | nil => exact absurd rfl hne
    | cons a t => simp [hdev a (List.mem_cons_self a t)]
  have hall : ((args.map fun a => a.isDevice).all id) = true := by
    simp only [List.all_eq_true]
    intro b hb
    rcases List.mem_map.mp hb with ⟨a, ha, rfl⟩
    simpa using hdev a ha
  refine ⟨?caseA, ?caseB, ?caseC⟩
  case caseA =>
    intro hld ha
    refine ⟨{ CUDAGenerializedUFunc.fresh_retval (α := α) (δ := δ) sched od freshId with
              data := CUDAGenerializedUFunc.written_of gkrun
                (args.map fun p => { p with shape := 1 :: p.shape })
                (CUDAGenerializedUFunc.fresh_retval (α := α) (δ := δ)
                  sched od freshId).data.length },
            ⟨(sched.loopn + ntid - 1) / ntid, ntid, sched.loopn,
             ((args.map fun p => { p with shape := 1 :: p.shape }).map
                fun p => p.shape)
               ++ [1 :: (CUDAGenerializedUFunc.fresh_retval (α := α) (δ := δ)
                    sched od freshId).shape]⟩,
            ?_, rfl, by simp [List.map_map, Function.comp, CUDAGenerializedUFunc.fresh_retval]⟩
    rw [CUDAGenerializedUFunc.call, if_neg (by rw [hany, hall]; exact fun h => h rfl)]
    simp only [hany, Bool.not_true, hsch, hkm, Bool.false_eq_true, if_false,
      except_pure_bind, hld, if_true, hloop]
    rw [mapM_gureshape_self (fun p => 1 :: p.shape) args
        (fun a haa => by rw [npProd_one_cons]; exact (ha a haa).symm),
      except_ok_bind]
    rw [show CUDAGenerializedUFunc.gureshape
          (CUDAGenerializedUFunc.fresh_retval sched od freshId)
          (1 :: (CUDAGenerializedUFunc.fresh_retval (α := α) (δ := δ)
            sched od freshId).shape)
        = Except.ok { CUDAGenerializedUFunc.fresh_retval sched od freshId with
            shape := 1 :: (CUDAGenerializedUFunc.fresh_retval (α := α) (δ := δ)
              sched od freshId).shape }
      from by
        unfold CUDAGenerializedUFunc.gureshape
        rw [if_pos (by simp [CUDAGenerializedUFunc.fresh_retval, npProd_one_cons])],
      except_ok_bind]
    simp only [CUDAGenerializedUFunc.launch_kernel, hat, except_ok_bind,
      except_pure_bind, except_pure_eq_ok]
    rfl
  case caseB =>
    intro hld1
    have hnenil : sched.loopdims ≠ [] := by
      intro h
      rw [h] at hld1
      exact absurd hld1 (by decide)
    refine ⟨{ CUDAGenerializedUFunc.fresh_retval (α := α) (δ := δ) sched od freshId with
              data := CUDAGenerializedUFunc.written_of gkrun args
                (CUDAGenerializedUFunc.fresh_retval (α := α) (δ := δ)
                  sched od freshId).data.length },
            ⟨(sched.loopn + ntid - 1) / ntid, ntid, sched.loopn,
             (args.map fun p => p.shape)
               ++ [(CUDAGenerializedUFunc.fresh_retval (α := α) (δ := δ)
                    sched od freshId).shape]⟩,
            ?_, rfl, rfl⟩
    rw [CUDAGenerializedUFunc.call, if_neg (by rw [hany, hall]; exact fun h => h rfl)]
    simp only [hany, Bool.not_true, hsch, hkm, Bool.false_eq_true, if_false,
      except_pure_bind, hloop, hnenil, hld1, gt_iff_lt, lt_irrefl, if_true]
    simp only [CUDAGenerializedUFunc.launch_kernel, hat, except_ok_bind,
      except_pure_bind, except_pure_eq_ok]
    rfl
  case caseC =>
    intro hgt hzipv hosh
    have hnenil : sched.loopdims ≠ [] := by
      intro h
      rw [h] at hgt
      exact absurd hgt (by decide)
    refine ⟨{ CUDAGenerializedUFunc.fresh_retval (α := α) (δ := δ) sched od freshId with
              data := CUDAGenerializedUFunc.written_of gkrun
                ((args.zip sched.ishapes).map fun pc =>
                  { pc.1 with shape := sched.loopn :: pc.2 })
                (CUDAGenerializedUFunc.fresh_retval (α := α) (δ := δ)
                  sched od freshId).data.length },
            ⟨(sched.loopn + ntid - 1) / ntid, ntid, sched.loopn,
             (((args.zip sched.ishapes).map fun pc =>
                  { pc.1 with shape := sched.loopn :: pc.2 }).map fun p => p.shape)
               ++ [sched.loopn :: sched.oshapes.headD []]⟩,
            ?_, rfl, by simp [List.map_map, Function.comp, CUDAGenerializedUFunc.fresh_retval]⟩
    rw [CUDAGenerializedUFunc.call, if_neg (by rw [hany, hall]; exact fun h => h rfl)]
    simp only [hany, Bool.not_true, hsch, hkm, Bool.false_eq_true, if_false,
      except_pure_bind, hloop, hnenil, gt_iff_lt, hgt, if_true]
    rw [mapM_gureshape_zip sched.loopn (args.zip sched.ishapes) hzipv,
      except_ok_bind]
    rw [show CUDAGenerializedUFunc.gureshape
          (CUDAGenerializedUFunc.fresh_retval sched od freshId)
          (sched.loopn :: sched.oshapes.headD [])
        = Except.ok { CUDAGenerializedUFunc.fresh_retval (α := α) (δ := δ)
            sched od freshId with
            shape := sched.loopn :: sched.oshapes.headD [] }
      from by
        unfold CUDAGenerializedUFunc.gureshape
        rw [if_pos (by
          simp only [CUDAGenerializedUFunc.fresh_retval, List.length_replicate]
          exact hosh)],
      except_ok_bind]
    simp only [CUDAGenerializedUFunc.launch_kernel, hat, except_ok_bind,
      except_pure_bind, except_pure_eq_ok]
    rfl

/-- Witness for C7 in the one-loop-dimension case: the schedule `sched1`
(`loopdims = [2]`) launches directly with the existing shapes
`(2,3), (2,3)` and the output shape `(2,4)`, over `loopn = 2`. -/
theorem C7_launch_shapes_witness :
    ∃ res L, CUDAGenerializedUFunc.call guFix gkFix [gdev23, gdev23] none 100
        = Except.ok (res, L) ∧
      L.nelem = 2 ∧ L.argShapes = [[2, 3], [2, 3], [2, 4]] :=
  (C7_launch_shapes guFix gkFix [gdev23, gdev23] 100 sched1 0 natAddKernel 8
    (by decide) (by decide) (by rfl) (by rfl) (by decide) (by rfl)).2.1 (by rfl)

end Dispatch
